import Mathlib

/-!
# Verification of the transaction codec and signer

Shallow embedding of `src/types/transaction_request.rs`: the RLP-style
field codec (`rlp_append_unsigned_transaction`,
`rlp_append_sealed_transaction`, the two `Decodable::decode` impls),
the replay-protection rule (`signature::add_chain_replay_protection`),
signing (`RawTransactionRequest::with_signature`), and the chain-id
recovery logic (`UnverifiedTransaction::chain_id`, `is_unsigned`,
`original_v`).

Modelling choices:
* RLP items are modelled at the item-tree level (`RlpItem`): a byte
  string or a list of items.  The byte-level framing (length prefixes)
  is the external `rlp` crate's concern; every claim is about element
  counts, field order and field values, all visible at this level.
* The behaviour of the external `rlp` crate's `Rlp::item_count`,
  `Rlp::at`, `Rlp::val_at`, `decode_value` and its `Decodable` /
  `Encodable` impls for unsigned integers, `H160`, `Vec<u8>` and
  `Option<T>` is reproduced here (integers as minimal big-endian byte
  strings, `Option` as a nested 0/1-element list — the nested-list
  `Option` encoding is confirmed by the byte dump in the repository's
  own `should_get_tx` test).
* Machine integers (`u64`, `U256`) are `Nat`; `u64` arithmetic in
  `add_chain_replay_protection` is reduced mod `2 ^ 64` where it can
  overflow.
* A Rust panic (`Option::unwrap` on `None` in `with_signature`) is
  modelled as an `Option.none` result.
* The memoized `hash` field of `UnverifiedTransaction` (a keccak256 of
  the payload, an external primitive the spec treats as correct) is
  omitted: it never appears in any wire encoding or claim.
-/

/-- Errors of the external `rlp` crate's `DecoderError` that the
decode paths here can produce. -/
inductive DecoderError where
  | rlpIncorrectListLen
  | rlpIsTooShort
  | rlpIsTooBig
  | rlpExpectedToBeList
  | rlpExpectedToBeData
  | rlpInvalidIndirection
deriving DecidableEq

/-- An RLP item: a byte string (bytes as `Nat`s below 256) or a list of
items.  This is the parse tree the `rlp` crate exposes through `Rlp`. -/
inductive RlpItem where
  | str : List Nat → RlpItem
  | list : List RlpItem → RlpItem

/-- Positional lookup in a list (models indexing used by `Rlp::at`). -/
def listGet {α : Type} : List α → Nat → Option α
  | [], _ => none
  | x :: _, 0 => some x
  | _ :: xs, n + 1 => listGet xs n

/-- Models `Rlp::item_count`: the number of elements of a list item;
a data item is rejected with `RlpExpectedToBeList`. -/
def RlpItem.item_count : RlpItem → Except DecoderError Nat
  | RlpItem.str _ => Except.error DecoderError.rlpExpectedToBeList
  | RlpItem.list items => Except.ok items.length

/-- Models `Rlp::at(index)`: the element at `index` of a list item;
out of range is `RlpIsTooShort`, a data item is `RlpExpectedToBeList`. -/
def RlpItem.atIdx : RlpItem → Nat → Except DecoderError RlpItem
  | RlpItem.str _, _ => Except.error DecoderError.rlpExpectedToBeList
  | RlpItem.list items, i =>
    match listGet items i with
    | some x => Except.ok x
    | none => Except.error DecoderError.rlpIsTooShort

/-- Models `BasicDecoder::decode_value`: applies `f` to the bytes of a
data item, rejects a list item with `RlpExpectedToBeData`. -/
def RlpItem.decodeValue {α : Type} (f : List Nat → Except DecoderError α) :
    RlpItem → Except DecoderError α
  | RlpItem.str bytes => f bytes
  | RlpItem.list _ => Except.error DecoderError.rlpExpectedToBeData

/-- Models `Rlp::val_at::<T>(index)`: `T::decode(&self.at(index)?)`. -/
def valAt {α : Type} (dec : RlpItem → Except DecoderError α)
    (d : RlpItem) (i : Nat) : Except DecoderError α :=
  d.atIdx i >>= dec

/-- Models the `rlp` crate's unsigned-integer value decoding: at most
`maxLen` big-endian bytes, no leading zero byte, empty string is zero. -/
def decodeUintBytes (maxLen : Nat) (bytes : List Nat) : Except DecoderError Nat :=
  if bytes.length > maxLen then Except.error DecoderError.rlpIsTooBig
  else
    match bytes with
    | [] => Except.ok 0
    | b :: _ =>
      if b = 0 then Except.error DecoderError.rlpInvalidIndirection
      else Except.ok (bytes.foldl (fun acc x => acc * 256 + x) 0)

/-- Models `<u64 as Decodable>::decode` (at most 8 bytes). -/
def decodeU64 (d : RlpItem) : Except DecoderError Nat :=
  d.decodeValue (decodeUintBytes 8)

/-- Models `<U256 as Decodable>::decode` (at most 32 bytes). -/
def decodeU256 (d : RlpItem) : Except DecoderError Nat :=
  d.decodeValue (decodeUintBytes 32)

/-- A 20-byte account address (`H160`); the byte list of a well-formed
address has length 20. -/
structure Address where
  bytes : List Nat
deriving DecidableEq

/-- Models `<H160 as Decodable>::decode`: exactly 20 bytes. -/
def decodeAddress (d : RlpItem) : Except DecoderError Address :=
  d.decodeValue fun bytes =>
    if bytes.length = 20 then Except.ok ⟨bytes⟩
    else if bytes.length < 20 then Except.error DecoderError.rlpIsTooShort
    else Except.error DecoderError.rlpIsTooBig

/-- Models `<Vec + u8 + as Decodable>::decode`: any data item. -/
def decodeBytes (d : RlpItem) : Except DecoderError (List Nat) :=
  d.decodeValue fun bytes => Except.ok bytes

/-- Models `<Option + T + as Decodable>::decode`: a nested list of 0 or
1 elements (`1 => val_at(0).map(Some), 0 => None, _ => IncorrectListLen`). -/
def decodeOption {α : Type} (dec : RlpItem → Except DecoderError α)
    (d : RlpItem) : Except DecoderError (Option α) :=
  match d.item_count with
  | Except.error e => Except.error e
  | Except.ok 1 => (valAt dec d 0).map some
  | Except.ok 0 => Except.ok none
  | Except.ok _ => Except.error DecoderError.rlpIncorrectListLen

/-- Minimal big-endian byte string of `n` (fuel-based structural
recursion so that concrete evaluation reduces definitionally);
`beBytesAux fuel n` with `fuel ≥ n` equals the digit list of `n`. -/
def beBytesAux : Nat → Nat → List Nat
  | 0, _ => []
  | _ + 1, 0 => []
  | fuel + 1, n => beBytesAux fuel (n / 256) ++ [n % 256]

/-- Minimal big-endian byte string of `n` (empty for zero): the
`rlp` crate's value encoding of an unsigned integer. -/
def beBytes (n : Nat) : List Nat := beBytesAux n n

/-- Models the `rlp` crate's `Encodable` for unsigned integers
(`u8`, `u64`, `U256` all use the minimal big-endian value form). -/
def encUint (n : Nat) : RlpItem := RlpItem.str (beBytes n)

/-- Models `Encodable` for `H160`: the fixed-width 20-byte string. -/
def encAddress (a : Address) : RlpItem := RlpItem.str a.bytes

/-- Models `Encodable` for `Vec + u8 +`: the raw byte string. -/
def encBytes (b : List Nat) : RlpItem := RlpItem.str b

/-- Models `Encodable` for `Option + T +`: `None` is an empty nested
list, `Some x` a 1-element nested list. -/
def encOption {α : Type} (enc : α → RlpItem) : Option α → RlpItem
  | none => RlpItem.list []
  | some x => RlpItem.list [enc x]

/-- Models `RlpStream` as the ordered list of elements appended so far;
`begin_list(n)` only pre-declares the element count in the byte-level
framing, so it has no separate representation here. -/
structure RlpStream where
  items : List RlpItem

/-- Models `RlpStream::new`. -/
def RlpStream.new : RlpStream := ⟨[]⟩

/-- Models `RlpStream::append`. -/
def RlpStream.append (s : RlpStream) (x : RlpItem) : RlpStream :=
  ⟨s.items ++ [x]⟩

/-- The finished stream as a single RLP list item. -/
def RlpStream.out (s : RlpStream) : RlpItem := RlpItem.list s.items

/-- `RawTransactionRequest` (fields in source declaration order):
recipient, gas limit, gas price, value, payload, nonce, chain id.
`U256` fields and the `u64` chain id are `Nat`. -/
structure RawTransactionRequest where
  «to» : Option Address
  gas : Option Nat
  gas_price : Option Nat
  value : Option Nat
  data : Option (List Nat)
  nonce : Option Nat
  chain_id : Option Nat
deriving DecidableEq

/-- Models `RawTransactionRequest::rlp_append_unsigned_transaction`:
`begin_list(6 or 9)`, then nonce, gas price, gas, to, value, data, and
when a chain id is present also `chain_id, 0u8, 0u8`. -/
def RawTransactionRequest.rlp_append_unsigned_transaction
    (tx : RawTransactionRequest) : RlpItem :=
  let s := RlpStream.new
  let s := s.append (encOption encUint tx.nonce)
  let s := s.append (encOption encUint tx.gas_price)
  let s := s.append (encOption encUint tx.gas)
  let s := s.append (encOption encAddress tx.«to»)
  let s := s.append (encOption encUint tx.value)
  let s := s.append (encOption encBytes tx.data)
  let s :=
    match tx.chain_id with
    | none => s
    | some n => ((s.append (encUint n)).append (encUint 0)).append (encUint 0)
  s.out

/-- Models `<RawTransactionRequest as Decodable>::decode`: rejects any
item whose element count is not 6, then reads fields at indices 0..5
and — exactly as the source does — the chain id at index 6. -/
def RawTransactionRequest.decode (d : RlpItem) :
    Except DecoderError RawTransactionRequest :=
  match d.item_count with
  | Except.error e => Except.error e
  | Except.ok cnt =>
    if cnt ≠ 6 then Except.error DecoderError.rlpIncorrectListLen
    else
      valAt (decodeOption decodeU256) d 0 >>= fun nonce =>
      valAt (decodeOption decodeU256) d 1 >>= fun gas_price =>
      valAt (decodeOption decodeU256) d 2 >>= fun gas =>
      valAt (decodeOption decodeAddress) d 3 >>= fun to_ =>
      valAt (decodeOption decodeU256) d 4 >>= fun value =>
      valAt (decodeOption decodeBytes) d 5 >>= fun data =>
      valAt (decodeOption decodeU64) d 6 >>= fun chain_id =>
      Except.ok ⟨to_, gas, gas_price, value, data, nonce, chain_id⟩

/-- The `u64` modulus. -/
def U64_MOD : Nat := 18446744073709551616

namespace signature

/-- Models `signature::add_chain_replay_protection`:
`v + if let Some(n) = chain_id { 35 + n * 2 } else { 27 }` with every
`u64` operation reduced mod `2 ^ 64`. -/
def add_chain_replay_protection (v : Nat) (chain_id : Option Nat) : Nat :=
  (v + (match chain_id with
        | some n => (35 + n * 2 % U64_MOD) % U64_MOD
        | none => 27)) % U64_MOD

end signature

/-- An `ethkey::Signature`: the `r` and `s` scalars and the recovery
byte `v`. -/
structure Signature where
  r : Nat
  s : Nat
  v : Nat
deriving DecidableEq

/-- `UnverifiedTransaction` (source field order: unsigned, v, r, s; the
memoized keccak `hash` field is omitted, see the header comment). -/
structure UnverifiedTransaction where
  unsigned : RawTransactionRequest
  v : Nat
  r : Nat
  s : Nat
deriving DecidableEq

/-- Models `<UnverifiedTransaction as Decodable>::decode`: rejects any
item whose element count is not 9, then reads the six unsigned fields,
the chain id at index 6 (as `Option<u64>`), `v` at index 6 again (as
`u64`), and `r`, `s` at indices 7 and 8. -/
def UnverifiedTransaction.decode (d : RlpItem) :
    Except DecoderError UnverifiedTransaction :=
  match d.item_count with
  | Except.error e => Except.error e
  | Except.ok cnt =>
    if cnt ≠ 9 then Except.error DecoderError.rlpIncorrectListLen
    else
      valAt (decodeOption decodeU256) d 0 >>= fun nonce =>
      valAt (decodeOption decodeU256) d 1 >>= fun gas_price =>
      valAt (decodeOption decodeU256) d 2 >>= fun gas =>
      valAt (decodeOption decodeAddress) d 3 >>= fun to_ =>
      valAt (decodeOption decodeU256) d 4 >>= fun value =>
      valAt (decodeOption decodeBytes) d 5 >>= fun data =>
      valAt (decodeOption decodeU64) d 6 >>= fun chain_id =>
      valAt decodeU64 d 6 >>= fun v =>
      valAt decodeU256 d 7 >>= fun r =>
      valAt decodeU256 d 8 >>= fun s =>
      Except.ok ⟨⟨to_, gas, gas_price, value, data, nonce, chain_id⟩, v, r, s⟩

/-- Models `UnverifiedTransaction::is_unsigned`:
`self.r.is_zero() && self.s.is_zero()`. -/
def UnverifiedTransaction.is_unsigned (t : UnverifiedTransaction) : Bool :=
  t.r == 0 && t.s == 0

/-- Models `UnverifiedTransaction::original_v`. -/
def UnverifiedTransaction.original_v (t : UnverifiedTransaction) : Nat := t.v

/-- Models `UnverifiedTransaction::chain_id`: `Some(v)` when the
signature is empty, `Some((v - 35) / 2)` when `v >= 35`, else `None`. -/
def UnverifiedTransaction.chain_id (t : UnverifiedTransaction) : Option Nat :=
  if t.is_unsigned then some t.v
  else if 35 ≤ t.v then some ((t.v - 35) / 2)
  else none

/-- Models `UnverifiedTransaction::rlp_append_sealed_transaction`:
`begin_list(9)`, the six unsigned fields, then `v`, `r`, `s`. -/
def UnverifiedTransaction.rlp_append_sealed_transaction
    (t : UnverifiedTransaction) : RlpItem :=
  let s := RlpStream.new
  let s := s.append (encOption encUint t.unsigned.nonce)
  let s := s.append (encOption encUint t.unsigned.gas_price)
  let s := s.append (encOption encUint t.unsigned.gas)
  let s := s.append (encOption encAddress t.unsigned.«to»)
  let s := s.append (encOption encUint t.unsigned.value)
  let s := s.append (encOption encBytes t.unsigned.data)
  let s := s.append (encUint t.v)
  let s := s.append (encUint t.r)
  let s := s.append (encUint t.s)
  s.out

/-- Models `RawTransactionRequest::with_signature`: builds the sealed
transaction with `v = add_chain_replay_protection(sig.v, Some(self.chain_id.unwrap()))`
and RLP-appends it.  `self.chain_id.unwrap()` panics when the chain id
is absent; the panic is modelled as `Option.none`. -/
def RawTransactionRequest.with_signature (tx : RawTransactionRequest)
    (sig : Signature) : Option RlpItem :=
  match tx.chain_id with
  | none => none
  | some c =>
    some (UnverifiedTransaction.rlp_append_sealed_transaction
      ⟨tx, signature.add_chain_replay_protection sig.v (some c), sig.r, sig.s⟩)

/-- Replaces the chain id of the embedded unsigned transaction (used
only to state that the sealed encoding ignores the chain id). -/
def setChainId (t : UnverifiedTransaction) (c : Option Nat) :
    UnverifiedTransaction :=
  ⟨⟨t.unsigned.«to», t.unsigned.gas, t.unsigned.gas_price, t.unsigned.value,
    t.unsigned.data, t.unsigned.nonce, c⟩, t.v, t.r, t.s⟩

/-- The all-zero address. -/
def zeroAddress : Address := ⟨List.replicate 20 0⟩

/-- The fixture of the repository's `should_get_tx` test: nonce 0,
gas price 42, gas 69, to the zero address, value 1337, empty data,
no chain id. -/
def testTx : RawTransactionRequest :=
  ⟨some zeroAddress, some 69, some 42, some 1337, some [], some 0, none⟩

/-- The same fixture with the spec's fixture chain id 1338. -/
def testTxChain : RawTransactionRequest :=
  ⟨some zeroAddress, some 69, some 42, some 1337, some [], some 0, some 1338⟩

/-- A sentinel transaction: empty signature, `v` holding a chain id. -/
def unsignedPlaceholderTx : UnverifiedTransaction := ⟨testTx, 1338, 0, 0⟩

/-- A replay-protected signed transaction with `v = 2711`. -/
def signedTx2711 : UnverifiedTransaction := ⟨testTx, 2711, 1, 1⟩

/-! ## Helper lemmas -/

/-- Binding an error short-circuits. -/
theorem error_bind {ε α β : Type} (e : ε) (f : α → Except ε β) :
    (Except.error e >>= f) = Except.error e := rfl

/-- Binding a success applies the continuation. -/
theorem ok_bind {ε α β : Type} (a : α) (f : α → Except ε β) :
    (Except.ok a >>= f) = f a := rfl

/-- A bind chain produces an error as soon as every continuation of a
successful head does. -/
theorem exists_error_bind {ε α β : Type} {x : Except ε α}
    {f : α → Except ε β}
    (h : ∀ a, x = Except.ok a → ∃ e, f a = Except.error e) :
    ∃ e, (x >>= f) = Except.error e := by
  cases x with
  | error e => exact ⟨e, rfl⟩
  | ok a => exact h a rfl

/-- Out-of-range lookup yields `none`. -/
theorem listGet_none_of_le {α : Type} :
    ∀ (xs : List α) (n : Nat), xs.length ≤ n → listGet xs n = none := by
  intro xs
  induction xs with
  | nil => intro n _; rfl
  | cons x xs ih =>
    intro n h
    cases n with
    | zero => simp at h
    | succ m => exact ih m (by simpa using h)

/-- `decodeOption` succeeds only on a list item. -/
theorem decodeOption_ok_isList {α : Type}
    {dec : RlpItem → Except DecoderError α} {x : RlpItem} {a : Option α}
    (h : decodeOption dec x = Except.ok a) : ∃ l, x = RlpItem.list l := by
  cases x with
  | str b => simp [decodeOption, RlpItem.item_count] at h
  | list l => exact ⟨l, rfl⟩

/-- `RawTransactionRequest::decode` rejects any list whose element
count is not 6 with `RlpIncorrectListLen`. -/
theorem raw_decode_len_ne (items : List RlpItem) (h : items.length ≠ 6) :
    RawTransactionRequest.decode (RlpItem.list items) =
      Except.error DecoderError.rlpIncorrectListLen := by
  simp [RawTransactionRequest.decode, RlpItem.item_count, h]

/-- `UnverifiedTransaction::decode` rejects any list whose element
count is not 9 with `RlpIncorrectListLen`. -/
theorem unv_decode_len_ne (items : List RlpItem) (h : items.length ≠ 9) :
    UnverifiedTransaction.decode (RlpItem.list items) =
      Except.error DecoderError.rlpIncorrectListLen := by
  simp [UnverifiedTransaction.decode, RlpItem.item_count, h]

/-- `RawTransactionRequest::decode` errors on every input: a data item
fails the element count, a list of length other than 6 fails the length
check, and a list of length 6 still fails because after the six fields
the decoder reads the chain id at index 6, which a 6-element list does
not have. -/
theorem raw_decode_error_exists (d : RlpItem) :
    ∃ e, RawTransactionRequest.decode d = Except.error e := by
  cases d with
  | str b => exact ⟨DecoderError.rlpExpectedToBeList, rfl⟩
  | list items =>
    by_cases h : items.length = 6
    · simp only [RawTransactionRequest.decode, RlpItem.item_count, h]
      norm_num
      apply exists_error_bind; intro a0 _
      apply exists_error_bind; intro a1 _
      apply exists_error_bind; intro a2 _
      apply exists_error_bind; intro a3 _
      apply exists_error_bind; intro a4 _
      apply exists_error_bind; intro a5 _
      apply exists_error_bind
      intro a6 h6
      have hat : RlpItem.atIdx (RlpItem.list items) 6 =
          Except.error DecoderError.rlpIsTooShort := by
        simp [RlpItem.atIdx, listGet_none_of_le items 6 (by omega)]
      simp only [valAt, hat, error_bind] at h6
      exact absurd h6 (by simp)
    · exact ⟨DecoderError.rlpIncorrectListLen, raw_decode_len_ne items h⟩

/-- `UnverifiedTransaction::decode` errors on every input: beyond the
length-9 check, element 6 is read twice, once as `Option<u64>` (which
requires a nested list) and once as `u64` (which requires a byte
string); no item satisfies both. -/
theorem unv_decode_error_exists (d : RlpItem) :
    ∃ e, UnverifiedTransaction.decode d = Except.error e := by
  cases d with
  | str b => exact ⟨DecoderError.rlpExpectedToBeList, rfl⟩
  | list items =>
    by_cases h : items.length = 9
    · simp only [UnverifiedTransaction.decode, RlpItem.item_count, h]
      norm_num
      apply exists_error_bind; intro a0 _
      apply exists_error_bind; intro a1 _
      apply exists_error_bind; intro a2 _
      apply exists_error_bind; intro a3 _
      apply exists_error_bind; intro a4 _
      apply exists_error_bind; intro a5 _
      apply exists_error_bind
      intro a6 h6
      simp only [valAt] at h6
      cases hat : RlpItem.atIdx (RlpItem.list items) 6 with
      | error e =>
        rw [hat, error_bind] at h6
        exact absurd h6 (by simp)
      | ok x =>
        rw [hat, ok_bind] at h6
        obtain ⟨l, rfl⟩ := decodeOption_ok_isList h6
        apply exists_error_bind
        intro a7 h7
        simp only [valAt, hat, ok_bind] at h7
        simp [decodeU64, RlpItem.decodeValue] at h7
    · exact ⟨DecoderError.rlpIncorrectListLen, unv_decode_len_ne items h⟩

/-! ## Claims -/

/-- Claim C1 (code bug): at the failing input — the repository's own
test fixture, whose `chain_id` is absent — `with_signature` does not
apply the legacy `recoveryBit + 27` rule and succeed; it hits
`self.chain_id.unwrap()` on `None` and panics (modelled as `none`). -/
theorem with_signature_panics_when_chain_id_absent :
    testTx.with_signature ⟨1, 1, 0⟩ = none := rfl

/-- Claim C2 (code bug): at the failing input — the 6-element
unprotected encoding of the test fixture — decoding does not return
the original transaction: the decoder reads the chain id at element
index 6 of the 6-element list and fails with `RlpIsTooShort`. -/
theorem decode_encode_unsigned_roundtrip_fails :
    RawTransactionRequest.decode testTx.rlp_append_unsigned_transaction =
      Except.error DecoderError.rlpIsTooShort := rfl

/-- Claim C3, amended: `add_chain_replay_protection` returns
`v + 35 + 2 × n` whenever that value fits in a `u64` (the arithmetic
is `u64` arithmetic, i.e. mod `2 ^ 64`); in particular for recovery
bit 0 and chain id 1338 the assembled `v` is `2711`. -/
theorem add_chain_replay_protection_formula :
    (∀ v n : Nat, v + 35 + 2 * n < 18446744073709551616 →
      signature.add_chain_replay_protection v (some n) = v + 35 + 2 * n)
    ∧ signature.add_chain_replay_protection 0 (some 1338) = 2711 := by
  constructor
  · intro v n h
    simp only [signature.add_chain_replay_protection, U64_MOD]
    omega
  · rfl

/-- Witness for the amended claim C3 at the spec's fixture input. -/
theorem add_chain_replay_protection_formula_witness :
    signature.add_chain_replay_protection 0 (some 1338) = 0 + 35 + 2 * 1338 :=
  add_chain_replay_protection_formula.1 0 1338 (by decide)

/-- Counterexample to claim C3 as stated: for the `u64` chain id
`2 ^ 63` the result wraps (it is 35), so it is not `v + 35 + 2 × n`. -/
theorem add_chain_replay_protection_overflow_cex :
    ¬ (signature.add_chain_replay_protection 0 (some 9223372036854775808) =
        0 + 35 + 2 * 9223372036854775808) := by decide

/-- Claim C4: the unprotected unsigned encoding is the 6-element list
nonce, gasPrice, gasLimit, to, value, data; with a chain id present
the three elements chainId, 0, 0 are appended, yielding 9 elements. -/
theorem unsigned_encoding_field_order (tx : RawTransactionRequest) :
    (tx.chain_id = none →
      tx.rlp_append_unsigned_transaction =
        RlpItem.list [encOption encUint tx.nonce,
          encOption encUint tx.gas_price, encOption encUint tx.gas,
          encOption encAddress tx.«to», encOption encUint tx.value,
          encOption encBytes tx.data]
      ∧ tx.rlp_append_unsigned_transaction.item_count = Except.ok 6)
    ∧ (∀ n, tx.chain_id = some n →
      tx.rlp_append_unsigned_transaction =
        RlpItem.list ([encOption encUint tx.nonce,
          encOption encUint tx.gas_price, encOption encUint tx.gas,
          encOption encAddress tx.«to», encOption encUint tx.value,
          encOption encBytes tx.data] ++ [encUint n, encUint 0, encUint 0])
      ∧ tx.rlp_append_unsigned_transaction.item_count = Except.ok 9) := by
  constructor
  · intro h
    constructor
    · simp [RawTransactionRequest.rlp_append_unsigned_transaction,
        RlpStream.new, RlpStream.append, RlpStream.out, h]
    · simp [RawTransactionRequest.rlp_append_unsigned_transaction,
        RlpStream.new, RlpStream.append, RlpStream.out, RlpItem.item_count, h]
  · intro n h
    constructor
    · simp [RawTransactionRequest.rlp_append_unsigned_transaction,
        RlpStream.new, RlpStream.append, RlpStream.out, h]
    · simp [RawTransactionRequest.rlp_append_unsigned_transaction,
        RlpStream.new, RlpStream.append, RlpStream.out, RlpItem.item_count, h]

/-- Witness for claim C4 at the test fixture without and with chain id. -/
theorem unsigned_encoding_field_order_witness :
    testTx.rlp_append_unsigned_transaction.item_count = Except.ok 6
    ∧ testTxChain.rlp_append_unsigned_transaction.item_count = Except.ok 9 :=
  ⟨((unsigned_encoding_field_order testTx).1 rfl).2,
   ((unsigned_encoding_field_order testTxChain).2 1338 rfl).2⟩

/-- Claim C5: the sealed (signed) encoding is always the 9-element list
nonce, gasPrice, gasLimit, to, value, data, v, r, s, and it does not
depend on the chain id of the underlying unsigned transaction. -/
theorem sealed_encoding_nine_elements (t : UnverifiedTransaction) :
    t.rlp_append_sealed_transaction =
      RlpItem.list [encOption encUint t.unsigned.nonce,
        encOption encUint t.unsigned.gas_price,
        encOption encUint t.unsigned.gas,
        encOption encAddress t.unsigned.«to»,
        encOption encUint t.unsigned.value,
        encOption encBytes t.unsigned.data,
        encUint t.v, encUint t.r, encUint t.s]
    ∧ t.rlp_append_sealed_transaction.item_count = Except.ok 9
    ∧ ∀ c, (setChainId t c).rlp_append_sealed_transaction =
        t.rlp_append_sealed_transaction := by
  refine ⟨?_, ?_, ?_⟩
  · simp [UnverifiedTransaction.rlp_append_sealed_transaction,
      RlpStream.new, RlpStream.append, RlpStream.out]
  · simp [UnverifiedTransaction.rlp_append_sealed_transaction,
      RlpStream.new, RlpStream.append, RlpStream.out, RlpItem.item_count]
  · intro c
    simp [UnverifiedTransaction.rlp_append_sealed_transaction,
      RlpStream.new, RlpStream.append, RlpStream.out, setChainId]

/-- Claim C6: chain-id recovery returns the raw `v` when `r = s = 0`,
`(v - 35) / 2` when the signature is non-empty and `v ≥ 35`, and no
chain id otherwise. -/
theorem chain_id_recovery_cases (t : UnverifiedTransaction) :
    (t.r = 0 ∧ t.s = 0 → t.chain_id = some t.original_v)
    ∧ (¬(t.r = 0 ∧ t.s = 0) → 35 ≤ t.v →
        t.chain_id = some ((t.v - 35) / 2))
    ∧ (¬(t.r = 0 ∧ t.s = 0) → t.v < 35 → t.chain_id = none) := by
  have hb : t.is_unsigned = true ↔ (t.r = 0 ∧ t.s = 0) := by
    simp [UnverifiedTransaction.is_unsigned]
  have hfb : ¬(t.r = 0 ∧ t.s = 0) → t.is_unsigned = false := by
    intro h
    cases hu : t.is_unsigned
    · rfl
    · exact absurd (hb.mp hu) h
  refine ⟨?_, ?_, ?_⟩
  · intro h
    simp [UnverifiedTransaction.chain_id, UnverifiedTransaction.original_v,
      hb.mpr h]
  · intro h h35
    simp [UnverifiedTransaction.chain_id, hfb h, h35]
  · intro h hlt
    have h35 : ¬ 35 ≤ t.v := by omega
    simp [UnverifiedTransaction.chain_id, hfb h, h35]

/-- Witness for claim C6: the sentinel case yields the raw `v`, the
replay-protected case recovers `(2711 - 35) / 2 = 1338`. -/
theorem chain_id_recovery_cases_witness :
    unsignedPlaceholderTx.chain_id = some 1338
    ∧ signedTx2711.chain_id = some 1338 :=
  ⟨(chain_id_recovery_cases unsignedPlaceholderTx).1 ⟨rfl, rfl⟩,
   (chain_id_recovery_cases signedTx2711).2.1 (by decide) (by decide)⟩

/-- Claim C7: a list whose element count is not 6 fails unsigned decode
with `RlpIncorrectListLen`, and a list whose element count is not 9
fails signed decode with the same error. -/
theorem decode_wrong_length_errors (items : List RlpItem) :
    (items.length ≠ 6 →
      RawTransactionRequest.decode (RlpItem.list items) =
        Except.error DecoderError.rlpIncorrectListLen)
    ∧ (items.length ≠ 9 →
      UnverifiedTransaction.decode (RlpItem.list items) =
        Except.error DecoderError.rlpIncorrectListLen) :=
  ⟨raw_decode_len_ne items, unv_decode_len_ne items⟩

/-- Witness for claim C7 at the empty list. -/
theorem decode_wrong_length_errors_witness :
    RawTransactionRequest.decode (RlpItem.list []) =
      Except.error DecoderError.rlpIncorrectListLen
    ∧ UnverifiedTransaction.decode (RlpItem.list []) =
      Except.error DecoderError.rlpIncorrectListLen :=
  ⟨(decode_wrong_length_errors []).1 (by decide),
   (decode_wrong_length_errors []).2 (by decide)⟩

/-- Claim C8, amended: `with_signature` performs no validation of the
signature at all — for any signature, well-formed or not, it succeeds
whenever a chain id is present; when the chain id is absent it panics
on `chain_id.unwrap()` (modelled as `none`) instead of returning a
`SigningError` (no such error exists in the code). -/
theorem with_signature_no_validation (tx : RawTransactionRequest)
    (sig : Signature) :
    (∀ c, tx.chain_id = some c → ∃ out, tx.with_signature sig = some out)
    ∧ (tx.chain_id = none → tx.with_signature sig = none) := by
  constructor
  · intro c h
    refine ⟨UnverifiedTransaction.rlp_append_sealed_transaction
      ⟨tx, signature.add_chain_replay_protection sig.v (some c), sig.r, sig.s⟩, ?_⟩
    simp [RawTransactionRequest.with_signature, h]
  · intro h
    simp [RawTransactionRequest.with_signature, h]

/-- Witness for the amended claim C8. -/
theorem with_signature_no_validation_witness :
    (∃ out, testTxChain.with_signature ⟨5, 7, 1⟩ = some out)
    ∧ testTx.with_signature ⟨5, 7, 1⟩ = none :=
  ⟨(with_signature_no_validation testTxChain ⟨5, 7, 1⟩).1 1338 rfl,
   (with_signature_no_validation testTx ⟨5, 7, 1⟩).2 rfl⟩

/-- Counterexample to claim C8 as stated: the signature with
`r = s = 0` — both scalars outside the valid range — is accepted, and
signing succeeds instead of failing with a `SigningError`. -/
theorem with_signature_accepts_malformed_signature_cex :
    (testTxChain.with_signature ⟨0, 0, 0⟩).isSome = true := rfl

/-- Claim C9: `RawTransactionRequest::decode` returns an error for
every input — a wrong-length list fails the length check with
`RlpIncorrectListLen`, and even a 6-element list fails because the
decoder then reads element index 6 — so no input decodes successfully
to an unsigned transaction. -/
theorem raw_decode_always_fails :
    (∀ items : List RlpItem, items.length ≠ 6 →
      RawTransactionRequest.decode (RlpItem.list items) =
        Except.error DecoderError.rlpIncorrectListLen)
    ∧ (∀ d : RlpItem, ∃ e,
        RawTransactionRequest.decode d = Except.error e) :=
  ⟨raw_decode_len_ne, raw_decode_error_exists⟩

/-- Witness for claim C9. -/
theorem raw_decode_always_fails_witness :
    RawTransactionRequest.decode (RlpItem.list []) =
      Except.error DecoderError.rlpIncorrectListLen
    ∧ ∃ e, RawTransactionRequest.decode (RlpItem.str []) = Except.error e :=
  ⟨raw_decode_always_fails.1 [] (by decide),
   raw_decode_always_fails.2 (RlpItem.str [])⟩

/-- Claim C10: every value `UnverifiedTransaction::decode` accepts
satisfies `unsigned.chain_id = some original_v`.  The second conjunct
records that this holds vacuously: the decoder accepts nothing, since
element 6 would have to parse both as `Option<u64>` (a nested list)
and as `u64` (a byte string). -/
theorem unverified_decode_chain_id_invariant (d : RlpItem) :
    (match UnverifiedTransaction.decode d with
      | Except.ok t => t.unsigned.chain_id = some t.original_v
      | Except.error _ => True)
    ∧ (UnverifiedTransaction.decode d).toOption = none := by
  obtain ⟨e, he⟩ := unv_decode_error_exists d
  rw [he]
  exact ⟨trivial, rfl⟩
